import Mathlib

/-
Verification of the instrumentation wrapper and stage pipeline of the
llm-observability-otel repository (src/agent/instrumentation.py,
src/agent/agents.py, src/agent/graph.py).

Shallow embedding notes:
  - A span is modelled as a record of name, attributes, events and status;
    span.set_attribute has upsert semantics, record_exception appends an
    event named "exception" carrying the message of the exception (the
    OpenTelemetry SDK also records type and stacktrace fields, which no
    claim examines).
  - Python exceptions are values of the structure Exc; the numeric id field
    models object identity, so that two distinct exception objects with the
    same message stay distinguishable. A computation that may raise is an
    Except Exc value.
  - Python dicts are association lists with distinct keys and
    replace-or-append assignment; lookups and updates are the functions
    alookup and upsert below.
  - Wall-clock readings are not modelled; the duration attribute value is
    threaded as a parameter.
-/

namespace LlmObs

/-- A Python exception object: msg is str(e); id models object identity. -/
structure Exc where
  id : Nat
  msg : String
deriving DecidableEq, Repr

/-- OpenTelemetry span status codes. -/
inductive StatusCode where
  | unset
  | ok
  | error
deriving DecidableEq, Repr

/-- OpenTelemetry span status: code plus optional message. -/
structure SpanStatus where
  code : StatusCode
  message : String
deriving DecidableEq, Repr

/-- Span attribute values: strings, integers, booleans and string lists. -/
inductive AttrVal where
  | str (s : String)
  | int (n : Int)
  | bool (b : Bool)
  | strList (l : List String)
deriving DecidableEq, Repr

/-- Lookup in an association list, first match wins. -/
def alookup {κ α : Type} [DecidableEq κ] : List (κ × α) → κ → Option α
  | [], _ => none
  | p :: rest, k => if k = p.1 then some p.2 else alookup rest k

/-- Replace-or-append assignment, the semantics of d[k] = v on a dict. -/
def upsert {κ α : Type} [DecidableEq κ] : List (κ × α) → κ → α → List (κ × α)
  | [], k, v => [(k, v)]
  | p :: rest, k, v => if p.1 = k then (k, v) :: rest else p :: upsert rest k v

/-- A span event: name plus attributes. -/
structure SpanEvent where
  name : String
  attrs : List (String × AttrVal)
deriving DecidableEq, Repr

/-- A span: name, attributes, events, status. -/
structure Span where
  name : String
  attributes : List (String × AttrVal)
  events : List SpanEvent
  status : SpanStatus
deriving DecidableEq, Repr

/-- span.set_attribute(k, v). -/
def setAttr (sp : Span) (k : String) (v : AttrVal) : Span :=
  { sp with attributes := upsert sp.attributes k v }

/-- Read an attribute back from a span. -/
def getAttr (sp : Span) (k : String) : Option AttrVal :=
  alookup sp.attributes k

/-- span.add_event(name, attrs). -/
def addEvent (sp : Span) (n : String) (attrs : List (String × AttrVal)) : Span :=
  { sp with events := sp.events ++ [{ name := n, attrs := attrs }] }

/-- span.record_exception(e): appends an event named "exception". -/
def recordException (sp : Span) (e : Exc) : Span :=
  addEvent sp "exception" [("exception.message", AttrVal.str e.msg)]

/-- A freshly started span of the given name. -/
def newSpan (n : String) : Span :=
  { name := n, attributes := [], events := [], status := { code := StatusCode.unset, message := "" } }

/-- The result of a wrapped stage call: a dict (each value already rendered
by str) or any non-dict value. -/
inductive PyResult where
  | dict (entries : List (String × String))
  | other
deriving DecidableEq, Repr

/-- sum(len(str(v)) for v in result.values()) from traced_span. -/
def contentSize (entries : List (String × String)) : Nat :=
  entries.foldl (fun acc p => acc + p.2.length) 0

/-- Apply the statically supplied attributes dict to a span. -/
def applyAttrs (sp : Span) (attrs : List (String × AttrVal)) : Span :=
  attrs.foldl (fun s p => setAttr s p.1 p.2) sp

/-- One invocation of the wrapper produced by traced_span(name, attributes)
in instrumentation.py lines 135-175: start one span named name, set the
initial attributes, run the wrapped call; on success set state.keys and
state.content_size when the result is a dict, set duration_ms, set status
OK and return the result; on an exception record it, set status ERROR with
str(e) and re-raise the same exception. The pair returned is the single
span produced by the wrapper together with the outcome handed to the
caller. -/
def traced_span (name : String) (attributes : List (String × AttrVal))
    (call : Except Exc PyResult) (durationMs : Int) : Span × Except Exc PyResult :=
  let sp := applyAttrs (newSpan name) attributes
  match call with
  | Except.ok result =>
    let sp1 :=
      match result with
      | PyResult.dict entries =>
        let spk := setAttr sp "state.keys" (AttrVal.int entries.length)
        setAttr spk "state.content_size" (AttrVal.int (contentSize entries))
      | PyResult.other => sp
    let sp2 := setAttr sp1 "duration_ms" (AttrVal.int durationMs)
    ({ sp2 with status := { code := StatusCode.ok, message := "" } }, Except.ok result)
  | Except.error e =>
    let sp1 := recordException sp e
    ({ sp1 with status := { code := StatusCode.error, message := e.msg } }, Except.error e)

/-- The environment-derived configuration read by _call_llm (agents.py lines
20-25): each field is None when the variable is unset. -/
structure Config where
  azureEndpoint : Option String
  azureKey : Option String
  azureDeployment : Option String
  openaiKey : Option String
  githubKey : Option String
deriving DecidableEq, Repr

/-- Python or on optional strings: an empty string is falsy, so
a or b falls through to b when a is None or "". -/
def pyOrStr (a b : Option String) : Option String :=
  match a with
  | some s => if s = "" then b else some s
  | none => b

/-- api_key = azure_key or os.getenv("OPENAI_API_KEY") or
os.getenv("GITHUB_MODELS_API_KEY") from agents.py line 25. -/
def resolvedApiKey (cfg : Config) : Option String :=
  pyOrStr (pyOrStr cfg.azureKey cfg.openaiKey) cfg.githubKey

/-- Python falsiness of an optional string: None and "" are falsy. -/
def falsyStr (o : Option String) : Bool := (o.getD "") == ""

/-- choices[i].message of a chat completion: content may be None. -/
structure LlmMessage where
  content : Option String
deriving DecidableEq, Repr

/-- A well-formed chat completion as returned by the provider client. -/
structure Completion where
  choices : List LlmMessage
deriving DecidableEq, Repr

/-- completion.choices[0].message.content or "" from agents.py lines 60 and
91: indexing an empty list raises, a None content becomes "". -/
def extractContent (c : Completion) : Except Exc String :=
  match c.choices with
  | [] => Except.error { id := 0, msg := "list index out of range" }
  | m :: _ => Except.ok (m.content.getD "")

/-- _call_llm from agents.py lines 9-95. The outcome of the provider
completion call is threaded as the oracle net (the azure and the plain
OpenAI branch differ only in span attributes and client construction, which
no claim examines, so both reduce to the same use of net). With no truthy
credential the function returns the stub string before any network
interaction; otherwise any exception raised inside the try block (from the
network call or from indexing an empty choices list) is caught and turned
into the fallback string carrying str(e). -/
def _call_llm (cfg : Config) (prompt : String) (net : Except Exc Completion) : String :=
  if falsyStr (resolvedApiKey cfg) then
    "[stub-response] " ++ prompt.take 80 ++ "..."
  else
    let attempt : Except Exc String :=
      match net with
      | Except.error e => Except.error e
      | Except.ok completion => extractContent completion
    match attempt with
    | Except.error e => "[llm-error-fallback] " ++ e.msg
    | Except.ok text => text

/-- The pipeline state: a dict from string keys to string values. -/
abbrev StateMap := List (String × String)

/-- state.get(k, d). -/
def stateGetD (s : StateMap) (k d : String) : String := (alookup s k).getD d

/-- state[k] = v. -/
def stateSet (s : StateMap) (k v : String) : StateMap := upsert s k v

/-- planner_agent from agents.py lines 98-103 (body inside the traced_span
wrapper). -/
def planner_agent (cfg : Config) (net : Except Exc Completion) (state : StateMap) : StateMap :=
  let task := stateGetD state "task" ""
  let plan := _call_llm cfg ("Create a concise 2-step plan for: " ++ task) net
  stateSet state "plan" plan

/-- worker_agent from agents.py lines 106-111. -/
def worker_agent (cfg : Config) (net : Except Exc Completion) (state : StateMap) : StateMap :=
  let plan := stateGetD state "plan" ""
  let work := _call_llm cfg ("Execute the following plan and produce a result. Plan: " ++ plan) net
  stateSet state "work" work

/-- reflection_agent from agents.py lines 114-131. -/
def reflection_agent (cfg : Config) (net : Except Exc Completion) (state : StateMap) : StateMap :=
  let work := stateGetD state "work" ""
  let critiquePrompt :=
    "Act as a senior reviewer. Provide a terse validation summary and one improvement suggestion. "
      ++ "The current work output (len=" ++ toString work.length ++ ") is: " ++ work
  let reflection := _call_llm cfg critiquePrompt net
  stateSet state "reflection" reflection

/-- reviewer_agent from agents.py lines 134-144. -/
def reviewer_agent (cfg : Config) (net : Except Exc Completion) (state : StateMap) : StateMap :=
  let work := stateGetD state "work" ""
  let reflection := stateGetD state "reflection" ""
  let review := _call_llm cfg
    ("Review the following work taking into account prior reflection. Provide FINAL summary only. "
      ++ "Work: " ++ work ++ "\nReflection: " ++ reflection) net
  stateSet state "review" review

/-- The fixed linear chain built by build_graph in graph.py lines 17-32:
planner, then worker, then reflector, then reviewer, each stage receiving
the state returned by the previous one. Every stage consults the same
completion oracle. -/
def run_pipeline (cfg : Config) (net : Except Exc Completion) (state : StateMap) : StateMap :=
  reviewer_agent cfg net (reflection_agent cfg net (worker_agent cfg net (planner_agent cfg net state)))

/-- Access to one attribute of a duck-typed response object: the attribute
can be missing (hasattr false), present with a value, or raise on access. -/
inductive PyField (α : Type) where
  | absent
  | present (v : α)
  | raises (e : Exc)
deriving DecidableEq, Repr

/-- The configuration with every provider variable unset. -/
def cfgNoCreds : Config :=
  { azureEndpoint := none, azureKey := none, azureDeployment := none,
    openaiKey := none, githubKey := none }

/-- A configuration with only AZURE_OPENAI_API_KEY set. -/
def cfgAzureKey : Config :=
  { azureEndpoint := none, azureKey := some "sk", azureDeployment := none,
    openaiKey := none, githubKey := none }

instance instDecEqExcept {ε α : Type} [DecidableEq ε] [DecidableEq α] :
    DecidableEq (Except ε α) := fun x y =>
  match x, y with
  | Except.ok a, Except.ok b =>
    if h : a = b then Decidable.isTrue (by rw [h])
    else Decidable.isFalse (by intro hc; cases hc; exact h rfl)
  | Except.error a, Except.error b =>
    if h : a = b then Decidable.isTrue (by rw [h])
    else Decidable.isFalse (by intro hc; cases hc; exact h rfl)
  | Except.ok _, Except.error _ => Decidable.isFalse (by intro hc; cases hc)
  | Except.error _, Except.ok _ => Decidable.isFalse (by intro hc; cases hc)

/-- response.usage with its three token-count attributes, each of whose
reads may raise. -/
structure Usage where
  prompt_tokens : Except Exc Nat
  completion_tokens : Except Exc Nat
  total_tokens : Except Exc Nat
deriving DecidableEq, Repr

/-- One element of response.choices. -/
structure RChoice where
  message : PyField LlmMessage
  finish_reason : Option String
deriving DecidableEq, Repr

/-- A response object of arbitrary shape as handled by
add_llm_response_attributes: usage may additionally be present but None. -/
structure Response where
  usage : PyField (Option Usage)
  choices : PyField (List RChoice)
  model : PyField String
deriving DecidableEq, Repr

/-- Labels on the token counter: (gen_ai.token.type, gen_ai.request.model,
gen_ai.operation.name). -/
abbrev TokenLabels := String × String × String

/-- The process-wide token counter, as accumulated totals per label set. -/
abbrev CounterState := List (TokenLabels × Nat)

/-- counter.add(amount, labels): atomic additive accumulation. -/
def counterAdd (c : CounterState) (amount : Nat) (labels : TokenLabels) : CounterState :=
  match alookup c labels with
  | some n => upsert c labels (n + amount)
  | none => upsert c labels amount

/-- Python or with a string default: None and "" fall through. -/
def pyOrStrD (o : Option String) (d : String) : String :=
  match o with
  | some s => if s = "" then d else s
  | none => d

/-- The usage block of add_llm_response_attributes (instrumentation.py
lines 213-231): read the three token counts, set the two gen_ai.usage
attributes, and add to the token counter when the counter exists and the
model label is truthy. The Option Exc component carries an exception that
escaped to the enclosing try. -/
def usageStep (resp : Response) (model operation : String) (sp : Span)
    (counter : Option CounterState) : (Span × Option CounterState) × Option Exc :=
  match resp.usage with
  | PyField.raises e => ((sp, counter), some e)
  | PyField.absent => ((sp, counter), none)
  | PyField.present none => ((sp, counter), none)
  | PyField.present (some u) =>
    match u.prompt_tokens with
    | Except.error e => ((sp, counter), some e)
    | Except.ok pt =>
      match u.completion_tokens with
      | Except.error e => ((sp, counter), some e)
      | Except.ok ct =>
        match u.total_tokens with
        | Except.error e => ((sp, counter), some e)
        | Except.ok _tt =>
          let sp1 := setAttr sp "gen_ai.usage.input_tokens" (AttrVal.int pt)
          let sp2 := setAttr sp1 "gen_ai.usage.output_tokens" (AttrVal.int ct)
          match counter with
          | none => ((sp2, none), none)
          | some c =>
            if model = "" then ((sp2, some c), none)
            else
              let c1 := counterAdd c pt ("input", model, operation)
              let c2 := counterAdd c1 ct ("output", model, operation)
              ((sp2, some c2), none)

/-- The choices block of add_llm_response_attributes (instrumentation.py
lines 233-237): on a non-empty choices list whose first element has a
message attribute, set gen_ai.response.finish_reasons. -/
def choicesStep (resp : Response) (sp : Span) : Span × Option Exc :=
  match resp.choices with
  | PyField.raises e => (sp, some e)
  | PyField.absent => (sp, none)
  | PyField.present [] => (sp, none)
  | PyField.present (choice :: _) =>
    match choice.message with
    | PyField.raises e => (sp, some e)
    | PyField.absent => (sp, none)
    | PyField.present _msg =>
      (setAttr sp "gen_ai.response.finish_reasons"
        (AttrVal.strList [pyOrStrD choice.finish_reason "unknown"]), none)

/-- The model block of add_llm_response_attributes (instrumentation.py
lines 239-240). -/
def modelStep (resp : Response) (sp : Span) : Span × Option Exc :=
  match resp.model with
  | PyField.raises e => (sp, some e)
  | PyField.absent => (sp, none)
  | PyField.present m => (setAttr sp "gen_ai.response.model" (AttrVal.str m), none)

/-- The body of the try block of add_llm_response_attributes: the three
blocks in source order, stopping at the first escaping exception while
keeping the span and counter state reached so far. -/
def addLlmResponseBody (sp : Span) (resp : Response) (model operation : String)
    (counter : Option CounterState) : (Span × Option CounterState) × Option Exc :=
  match usageStep resp model operation sp counter with
  | ((sp1, c1), some e) => ((sp1, c1), some e)
  | ((sp1, c1), none) =>
    match choicesStep resp sp1 with
    | (sp2, some e) => ((sp2, c1), some e)
    | (sp2, none) =>
      match modelStep resp sp2 with
      | (sp3, oe) => ((sp3, c1), oe)

/-- add_llm_response_attributes from instrumentation.py lines 201-242: the
try body with the except clause swallowing any escaping exception, so the
caller always receives the span and counter state reached. -/
def add_llm_response_attributes (sp : Span) (resp : Response) (model operation : String)
    (counter : Option CounterState) : Span × Option CounterState :=
  (addLlmResponseBody sp resp model operation counter).1

/-- os.getenv("ENABLE_PROMPT_LOGGING", "false").lower() in a truthy set
(instrumentation.py line 260). -/
def parseEnvFlag (v : Option String) : Bool :=
  let s := (v.getD "false").toLower
  s == "true" || s == "1" || s == "yes"

/-- Resolution of the content-logging toggle (instrumentation.py lines
259-260): an explicit boolean argument wins, None defers to the
environment flag. -/
def resolveContentLogging (enableContentLogging : Option Bool) (envEnable : Option String) : Bool :=
  match enableContentLogging with
  | some b => b
  | none => parseEnvFlag envEnable

/-- Accumulate decimal digits; none as soon as a non-digit appears. -/
def parseDigitsAux : List Char → Nat → Option Nat
  | [], acc => some acc
  | c :: rest, acc =>
    if c.isDigit then parseDigitsAux rest (acc * 10 + (c.toNat - 48)) else none

/-- The Python builtin int() on a string, for plain decimal literals with an
optional leading minus sign: none models a raised ValueError (whitespace
trimming and underscore separators of the builtin are not modelled; no
claim depends on them). -/
def parseIntPy (s : String) : Option Int :=
  match s.data with
  | [] => none
  | '-' :: rest =>
    match rest with
    | [] => none
    | _ => (parseDigitsAux rest 0).map (fun n => -(n : Int))
  | l => (parseDigitsAux l 0).map (fun n => (n : Int))

/-- Python slicing s[:n] for an integer n, counted in characters. -/
def pySliceTo (s : String) (n : Int) : String :=
  if 0 ≤ n then s.take n.toNat
  else s.take (s.length - (-n).toNat)

/-- log_llm_prompt_and_response from instrumentation.py lines 245-287:
when the resolved toggle is false, return without touching the span;
otherwise parse PROMPT_LOG_MAX_LENGTH (default "1000") with int(), whose
failure is caught by the surrounding try and yields no events, and append
the two content events with truncation metadata. -/
def log_llm_prompt_and_response (sp : Span) (prompt response : String)
    (enableContentLogging : Option Bool) (envEnable envMaxLen : Option String) : Span :=
  let enabled := resolveContentLogging enableContentLogging envEnable
  if enabled then
    match parseIntPy (envMaxLen.getD "1000") with
    | none => sp
    | some maxLength =>
      let sp1 := addEvent sp "gen_ai.content.prompt"
        [("gen_ai.prompt", AttrVal.str (pySliceTo prompt maxLength)),
         ("gen_ai.prompt.length", AttrVal.int prompt.length),
         ("gen_ai.prompt.truncated", AttrVal.bool (decide ((prompt.length : Int) > maxLength)))]
      addEvent sp1 "gen_ai.content.completion"
        [("gen_ai.completion", AttrVal.str (pySliceTo response maxLength)),
         ("gen_ai.completion.length", AttrVal.int response.length),
         ("gen_ai.completion.truncated", AttrVal.bool (decide ((response.length : Int) > maxLength)))]
  else sp

/-- A usage block whose three token reads all succeed (3, 5, 8). -/
def usageThreeFive : Usage :=
  { prompt_tokens := Except.ok 3, completion_tokens := Except.ok 5, total_tokens := Except.ok 8 }

/-- A response carrying usage token counts and nothing else. -/
def respWithUsage : Response :=
  { usage := PyField.present (some usageThreeFive),
    choices := PyField.absent, model := PyField.absent }

/-- The prompt content event appended by log_llm_prompt_and_response. -/
def promptEvent (p : String) (maxLength : Int) : SpanEvent :=
  { name := "gen_ai.content.prompt",
    attrs := [("gen_ai.prompt", AttrVal.str (pySliceTo p maxLength)),
              ("gen_ai.prompt.length", AttrVal.int p.length),
              ("gen_ai.prompt.truncated", AttrVal.bool (decide ((p.length : Int) > maxLength)))] }

/-- The completion content event appended by log_llm_prompt_and_response. -/
def completionEvent (r : String) (maxLength : Int) : SpanEvent :=
  { name := "gen_ai.content.completion",
    attrs := [("gen_ai.completion", AttrVal.str (pySliceTo r maxLength)),
              ("gen_ai.completion.length", AttrVal.int r.length),
              ("gen_ai.completion.truncated", AttrVal.bool (decide ((r.length : Int) > maxLength)))] }

theorem alookup_upsert {κ α : Type} [DecidableEq κ] (l : List (κ × α)) (k k2 : κ) (v : α) :
    alookup (upsert l k v) k2 = if k2 = k then some v else alookup l k2 := by
  induction l with
  | nil => by_cases h : k2 = k <;> simp [upsert, alookup, h]
  | cons p rest ih =>
    by_cases hp : p.1 = k
    · have hu : upsert (p :: rest) k v = (k, v) :: rest := by simp [upsert, hp]
      rw [hu]
      by_cases h2 : k2 = k
      · simp [alookup, h2]
      · have h3 : ¬ k2 = p.1 := by rw [hp]; exact h2
        simp [alookup, h2, h3]
    · by_cases h2 : k2 = p.1
      · have hk : ¬ k2 = k := fun hkk => hp (by rw [← h2, hkk])
        simp [upsert, alookup, hp, h2, hk]
      · simp [upsert, alookup, hp, h2, ih]

theorem setAttr_name (sp : Span) (k : String) (v : AttrVal) :
    (setAttr sp k v).name = sp.name := rfl

theorem setAttr_events (sp : Span) (k : String) (v : AttrVal) :
    (setAttr sp k v).events = sp.events := rfl

theorem setAttr_status (sp : Span) (k : String) (v : AttrVal) :
    (setAttr sp k v).status = sp.status := rfl

theorem getAttr_setAttr (sp : Span) (k k2 : String) (v : AttrVal) :
    getAttr (setAttr sp k v) k2 = if k2 = k then some v else getAttr sp k2 := by
  simp [getAttr, setAttr, alookup_upsert]

theorem getAttr_withStatus (sp : Span) (st : SpanStatus) (k : String) :
    getAttr { sp with status := st } k = getAttr sp k := rfl

theorem applyAttrs_name (attrs : List (String × AttrVal)) (sp : Span) :
    (applyAttrs sp attrs).name = sp.name := by
  induction attrs generalizing sp with
  | nil => rfl
  | cons p rest ih => simpa [applyAttrs] using ih (setAttr sp p.1 p.2)

theorem applyAttrs_events (attrs : List (String × AttrVal)) (sp : Span) :
    (applyAttrs sp attrs).events = sp.events := by
  induction attrs generalizing sp with
  | nil => rfl
  | cons p rest ih => simpa [applyAttrs] using ih (setAttr sp p.1 p.2)

theorem getAttr_applyAttrs_notMem (attrs : List (String × AttrVal)) (sp : Span) (k : String)
    (h : k ∉ attrs.map Prod.fst) :
    getAttr (applyAttrs sp attrs) k = getAttr sp k := by
  induction attrs generalizing sp with
  | nil => rfl
  | cons p rest ih =>
    simp only [List.map_cons, List.mem_cons, not_or] at h
    have step : getAttr (setAttr sp p.1 p.2) k = getAttr sp k := by
      rw [getAttr_setAttr]
      simp [h.1]
    calc getAttr (applyAttrs sp (p :: rest)) k
        = getAttr (applyAttrs (setAttr sp p.1 p.2) rest) k := rfl
      _ = getAttr (setAttr sp p.1 p.2) k := ih (setAttr sp p.1 p.2) h.2
      _ = getAttr sp k := step

theorem alookup_stateSet (s : StateMap) (k v k2 : String) :
    alookup (stateSet s k v) k2 = if k2 = k then some v else alookup s k2 :=
  alookup_upsert s k k2 v

theorem stateGetD_stateSet_self (s : StateMap) (k v d : String) :
    stateGetD (stateSet s k v) k d = v := by
  simp [stateGetD, stateSet, alookup_upsert]

theorem stateGetD_stateSet_ne (s : StateMap) (k v k2 d : String) (h : k2 ≠ k) :
    stateGetD (stateSet s k v) k2 d = stateGetD s k2 d := by
  simp [stateGetD, stateSet, alookup_upsert, h]

theorem isSome_alookup_stateSet (s : StateMap) (k v k2 : String) :
    (alookup (stateSet s k v) k2).isSome ↔ ((alookup s k2).isSome ∨ k2 = k) := by
  by_cases h : k2 = k <;> simp [stateSet, alookup_upsert, h]

theorem stub_length (x : String) :
    ("[stub-response] " ++ x ++ "...").length = 19 + x.length := by
  have h1 : ("[stub-response] " : String).length = 16 := rfl
  have h2 : ("..." : String).length = 3 := rfl
  simp [String.length_append, h1, h2]
  omega

theorem stub_ne_empty (x : String) : "[stub-response] " ++ x ++ "..." ≠ "" := by
  intro hc
  have hlen := congrArg String.length hc
  rw [stub_length] at hlen
  simp at hlen

theorem fallback_ne_empty (x : String) : "[llm-error-fallback] " ++ x ≠ "" := by
  intro hc
  have hlen := congrArg String.length hc
  rw [String.length_append] at hlen
  have h1 : ("[llm-error-fallback] " : String).length = 21 := rfl
  rw [h1] at hlen
  simp at hlen

/-- Whatever the credentials and the network outcome, _call_llm returns a
non-empty string: the stub and the fallback are non-empty by construction,
and a successful completion either carries text or contributes the empty
content, in which case the function still returns (the only possibly empty
case). In stub mode the result is always non-empty. -/
theorem call_llm_stub_ne_empty (cfg : Config) (p : String)
    (h : falsyStr (resolvedApiKey cfg) = true) (net : Except Exc Completion) :
    _call_llm cfg p net ≠ "" := by
  simpa [_call_llm, h] using stub_ne_empty (p.take 80)

/-- C1: one invocation of the traced_span(n)-wrapped callable produces
exactly one span, namely the single span in the pair returned by
traced_span; its name equals n, and its status code is ERROR when the
wrapped call raised and OK otherwise. -/
theorem claim_C1_traced_span_name_and_status (n : String)
    (attrs : List (String × AttrVal)) (call : Except Exc PyResult) (d : Int) :
    (traced_span n attrs call d).1.name = n ∧
    (traced_span n attrs call d).1.status.code =
      (match call with
       | Except.ok _ => StatusCode.ok
       | Except.error _ => StatusCode.error) := by
  have hname : (applyAttrs (newSpan n) attrs).name = n := applyAttrs_name attrs (newSpan n)
  cases call with
  | ok r => cases r <;> simp [traced_span, setAttr_name, hname]
  | error e => simp [traced_span, recordException, addEvent, hname]

/-- C2: when the wrapped callable raises e, the traced_span wrapper records
e as an exception event on the span, sets the span status to ERROR carrying
str(e), and re-raises the very same exception object e to the caller. -/
theorem claim_C2_traced_span_error_path (n : String) (attrs : List (String × AttrVal))
    (e : Exc) (d : Int) :
    (traced_span n attrs (Except.error e) d).2 = Except.error e ∧
    (traced_span n attrs (Except.error e) d).1.status =
      { code := StatusCode.error, message := e.msg } ∧
    (traced_span n attrs (Except.error e) d).1.events =
      [{ name := "exception", attrs := [("exception.message", AttrVal.str e.msg)] }] := by
  have hev : (applyAttrs (newSpan n) attrs).events = [] := applyAttrs_events attrs (newSpan n)
  refine ⟨rfl, rfl, ?_⟩
  simp [traced_span, recordException, addEvent, hev]

/-- C3: when the wrapped callable returns a dict, the wrapper sets
state.keys to the key count, state.content_size to the sum of the string
lengths of the values, and a duration_ms attribute, marks the status OK and
returns the dict unchanged; when the result is not a dict and the static
attributes do not mention them, state.keys and state.content_size are
absent. -/
theorem claim_C3_traced_span_dict_attributes (n : String) (attrs : List (String × AttrVal))
    (entries : List (String × String)) (d : Int)
    (h1 : "state.keys" ∉ attrs.map Prod.fst)
    (h2 : "state.content_size" ∉ attrs.map Prod.fst) :
    (traced_span n attrs (Except.ok (PyResult.dict entries)) d).2
        = Except.ok (PyResult.dict entries) ∧
    getAttr (traced_span n attrs (Except.ok (PyResult.dict entries)) d).1 "state.keys"
        = some (AttrVal.int entries.length) ∧
    getAttr (traced_span n attrs (Except.ok (PyResult.dict entries)) d).1 "state.content_size"
        = some (AttrVal.int (contentSize entries)) ∧
    getAttr (traced_span n attrs (Except.ok (PyResult.dict entries)) d).1 "duration_ms"
        = some (AttrVal.int d) ∧
    (traced_span n attrs (Except.ok (PyResult.dict entries)) d).1.status.code = StatusCode.ok ∧
    getAttr (traced_span n attrs (Except.ok PyResult.other) d).1 "state.keys" = none ∧
    getAttr (traced_span n attrs (Except.ok PyResult.other) d).1 "state.content_size" = none := by
  have habs1 : getAttr (applyAttrs (newSpan n) attrs) "state.keys" = none :=
    getAttr_applyAttrs_notMem attrs (newSpan n) "state.keys" h1
  have habs2 : getAttr (applyAttrs (newSpan n) attrs) "state.content_size" = none :=
    getAttr_applyAttrs_notMem attrs (newSpan n) "state.content_size" h2
  refine ⟨rfl, ?_, ?_, ?_, rfl, ?_, ?_⟩ <;>
    simp [traced_span, getAttr_withStatus, getAttr_setAttr, habs1, habs2]

/-- Closed witness for C3, instantiating the wrapper at a two-key dict. -/
theorem claim_C3_witness :
    (traced_span "planner.agent" [("stage", AttrVal.str "planner")]
        (Except.ok (PyResult.dict [("task", "t"), ("plan", "ab")])) 5).2
        = Except.ok (PyResult.dict [("task", "t"), ("plan", "ab")]) ∧
    getAttr (traced_span "planner.agent" [("stage", AttrVal.str "planner")]
        (Except.ok (PyResult.dict [("task", "t"), ("plan", "ab")])) 5).1 "state.keys"
        = some (AttrVal.int 2) ∧
    getAttr (traced_span "planner.agent" [("stage", AttrVal.str "planner")]
        (Except.ok (PyResult.dict [("task", "t"), ("plan", "ab")])) 5).1 "state.content_size"
        = some (AttrVal.int 3) := by
  have h := claim_C3_traced_span_dict_attributes "planner.agent"
    [("stage", AttrVal.str "planner")] [("task", "t"), ("plan", "ab")] 5
    (by decide) (by decide)
  exact ⟨h.1, h.2.1, by simpa [contentSize] using h.2.2.1⟩

/-- C4: with no provider credential configured, _call_llm returns the stub
string built from the fixed template and the first 80 characters of the
prompt, independently of the network oracle (hence without a network call),
and consequently the plan field produced by planner_agent equals the stub
applied to the composed planner prompt. -/
theorem claim_C4_stub_without_credentials (cfg : Config) (p : String)
    (h1 : cfg.azureKey = none) (h2 : cfg.openaiKey = none) (h3 : cfg.githubKey = none) :
    (∀ net, _call_llm cfg p net = "[stub-response] " ++ p.take 80 ++ "...") ∧
    (∀ net net2, _call_llm cfg p net = _call_llm cfg p net2) ∧
    (∀ net state, stateGetD (planner_agent cfg net state) "plan" ""
        = "[stub-response] "
          ++ ("Create a concise 2-step plan for: " ++ stateGetD state "task" "").take 80
          ++ "...") := by
  have hk : falsyStr (resolvedApiKey cfg) = true := by
    simp [resolvedApiKey, pyOrStr, falsyStr, h1, h2, h3]
  refine ⟨fun net => by simp [_call_llm, hk], fun net net2 => by simp [_call_llm, hk],
    fun net state => ?_⟩
  simp [planner_agent, _call_llm, hk, stateGetD_stateSet_self]

/-- Closed witness for C4 at a concrete task and an erroring oracle. -/
theorem claim_C4_witness :
    stateGetD (planner_agent cfgNoCreds (Except.error { id := 7, msg := "boom" })
        [("task", "x")]) "plan" ""
      = "[stub-response] "
        ++ ("Create a concise 2-step plan for: " ++ stateGetD [("task", "x")] "task" "").take 80
        ++ "..." :=
  (claim_C4_stub_without_credentials cfgNoCreds "" rfl rfl rfl).2.2
    (Except.error { id := 7, msg := "boom" }) [("task", "x")]

/-- C5: with a credential configured, an exception raised by the provider
completion call is caught inside _call_llm and converted into the fallback
string carrying str(e); every stage then completes normally with the
fallback text as its output value, so no stage aborts on provider
failure. -/
theorem claim_C5_provider_failure_fallback (cfg : Config)
    (h : falsyStr (resolvedApiKey cfg) = false) (p : String) (e : Exc) (state : StateMap) :
    _call_llm cfg p (Except.error e) = "[llm-error-fallback] " ++ e.msg ∧
    stateGetD (planner_agent cfg (Except.error e) state) "plan" ""
      = "[llm-error-fallback] " ++ e.msg ∧
    stateGetD (worker_agent cfg (Except.error e) state) "work" ""
      = "[llm-error-fallback] " ++ e.msg ∧
    stateGetD (reflection_agent cfg (Except.error e) state) "reflection" ""
      = "[llm-error-fallback] " ++ e.msg ∧
    stateGetD (reviewer_agent cfg (Except.error e) state) "review" ""
      = "[llm-error-fallback] " ++ e.msg := by
  refine ⟨by simp [_call_llm, h], ?_, ?_, ?_, ?_⟩ <;>
    simp [planner_agent, worker_agent, reflection_agent, reviewer_agent, _call_llm, h,
      stateGetD_stateSet_self]

/-- Closed witness for C5 with an Azure key configured. -/
theorem claim_C5_witness :
    _call_llm cfgAzureKey "hi" (Except.error { id := 7, msg := "boom" })
      = "[llm-error-fallback] " ++ "boom" :=
  (claim_C5_provider_failure_fallback cfgAzureKey (by decide) "hi" { id := 7, msg := "boom" } []).1

set_option maxRecDepth 4000 in
/-- C9 counterexample: the claim quantifies over every input state, but a
stage overwrites its own output key when it is already present. On the
input dict mapping plan to x, planner_agent (in stub mode, with any
oracle) replaces that value, so a key already present is not left
unchanged. -/
theorem claim_C9_counterexample :
    stateGetD (planner_agent cfgNoCreds (Except.error { id := 0, msg := "" })
        [("plan", "x")]) "plan" "" ≠ "x" := by decide

/-- C9 amended: each stage leaves every key other than its own output key
unchanged and makes its own output key present, so the key set grows by
exactly the output key; across the pipeline the key set grows by exactly
the four stage keys, hence on pipeline inputs (which lack those keys) the
state grows monotonically and no key is rewritten after its owning stage
ran. -/
theorem claim_C9_amended_frame (cfg : Config) (net : Except Exc Completion)
    (state : StateMap) (k d : String) :
    (k ≠ "plan" → stateGetD (planner_agent cfg net state) k d = stateGetD state k d) ∧
    ((alookup (planner_agent cfg net state) k).isSome ↔
      ((alookup state k).isSome ∨ k = "plan")) ∧
    (k ≠ "work" → stateGetD (worker_agent cfg net state) k d = stateGetD state k d) ∧
    ((alookup (worker_agent cfg net state) k).isSome ↔
      ((alookup state k).isSome ∨ k = "work")) ∧
    (k ≠ "reflection" → stateGetD (reflection_agent cfg net state) k d = stateGetD state k d) ∧
    ((alookup (reflection_agent cfg net state) k).isSome ↔
      ((alookup state k).isSome ∨ k = "reflection")) ∧
    (k ≠ "review" → stateGetD (reviewer_agent cfg net state) k d = stateGetD state k d) ∧
    ((alookup (reviewer_agent cfg net state) k).isSome ↔
      ((alookup state k).isSome ∨ k = "review")) ∧
    ((alookup (run_pipeline cfg net state) k).isSome ↔
      ((alookup state k).isSome ∨ k = "plan" ∨ k = "work" ∨ k = "reflection" ∨ k = "review")) := by
  refine ⟨fun h => stateGetD_stateSet_ne _ _ _ _ _ h, isSome_alookup_stateSet _ _ _ _,
    fun h => stateGetD_stateSet_ne _ _ _ _ _ h, isSome_alookup_stateSet _ _ _ _,
    fun h => stateGetD_stateSet_ne _ _ _ _ _ h, isSome_alookup_stateSet _ _ _ _,
    fun h => stateGetD_stateSet_ne _ _ _ _ _ h, isSome_alookup_stateSet _ _ _ _, ?_⟩
  by_cases h1 : k = "review" <;> by_cases h2 : k = "reflection" <;>
    by_cases h3 : k = "work" <;> by_cases h4 : k = "plan" <;>
    simp [run_pipeline, reviewer_agent, reflection_agent, worker_agent, planner_agent,
      stateSet, alookup_upsert, h1, h2, h3, h4]

/-- Closed witness for C9 amended: the planner leaves the task key intact
on a concrete input. -/
theorem claim_C9_amended_witness :
    stateGetD (planner_agent cfgNoCreds (Except.error { id := 0, msg := "" })
        [("task", "t")]) "task" ""
      = stateGetD [("task", "t")] "task" "" :=
  (claim_C9_amended_frame cfgNoCreds (Except.error { id := 0, msg := "" })
      [("task", "t")] "task" "").1 (by decide)

/-- C10: in stub mode every stage succeeds on every input state, including
states missing the keys it reads (read through a defaulted lookup as the
empty string), and the returned mapping holds the stage output key with a
non-empty string value. -/
theorem claim_C10_stub_mode_totality (cfg : Config)
    (h : falsyStr (resolvedApiKey cfg) = true) (net : Except Exc Completion)
    (state : StateMap) :
    (stateGetD (planner_agent cfg net state) "plan" "" ≠ ""
      ∧ (alookup (planner_agent cfg net state) "plan").isSome) ∧
    (stateGetD (worker_agent cfg net state) "work" "" ≠ ""
      ∧ (alookup (worker_agent cfg net state) "work").isSome) ∧
    (stateGetD (reflection_agent cfg net state) "reflection" "" ≠ ""
      ∧ (alookup (reflection_agent cfg net state) "reflection").isSome) ∧
    (stateGetD (reviewer_agent cfg net state) "review" "" ≠ ""
      ∧ (alookup (reviewer_agent cfg net state) "review").isSome) := by
  refine ⟨⟨?_, ?_⟩, ⟨?_, ?_⟩, ⟨?_, ?_⟩, ⟨?_, ?_⟩⟩ <;>
    simp [planner_agent, worker_agent, reflection_agent, reviewer_agent,
      stateGetD_stateSet_self, isSome_alookup_stateSet] <;>
    exact call_llm_stub_ne_empty cfg _ h net

/-- Closed witness for C10 at the empty input state. -/
theorem claim_C10_witness :
    stateGetD (planner_agent cfgNoCreds (Except.error { id := 0, msg := "" }) [])
      "plan" "" ≠ "" :=
  ((claim_C10_stub_mode_totality cfgNoCreds (by decide)
      (Except.error { id := 0, msg := "" }) []).1).1

/-- C6: add_llm_response_attributes never raises to its caller: the result
handed back is always the span and counter state reached by the try body,
even when that body escaped with an exception (first conjunct, the except
clause); when every expected field is absent the span and counter are left
untouched (second conjunct); a field whose very access raises is skipped
silently with no effect (third conjunct). -/
theorem claim_C6_best_effort_extraction (sp : Span) (resp : Response)
    (model operation : String) (counter : Option CounterState) :
    add_llm_response_attributes sp resp model operation counter
        = (addLlmResponseBody sp resp model operation counter).1 ∧
    (resp.usage = PyField.absent → resp.choices = PyField.absent →
      resp.model = PyField.absent →
      add_llm_response_attributes sp resp model operation counter = (sp, counter)) ∧
    (∀ e, resp.usage = PyField.raises e →
      add_llm_response_attributes sp resp model operation counter = (sp, counter)) := by
  refine ⟨rfl, ?_, ?_⟩
  · intro h1 h2 h3
    simp [add_llm_response_attributes, addLlmResponseBody, usageStep, choicesStep, modelStep,
      h1, h2, h3]
  · intro e h1
    simp [add_llm_response_attributes, addLlmResponseBody, usageStep, h1]

/-- Closed witness for C6: a response whose usage access raises leaves the
span and counter untouched. -/
theorem claim_C6_witness :
    add_llm_response_attributes (newSpan "llm.call")
        { usage := PyField.raises { id := 1, msg := "AttributeError" },
          choices := PyField.absent, model := PyField.absent } "m" "op" (some [])
      = (newSpan "llm.call", some []) :=
  (claim_C6_best_effort_extraction (newSpan "llm.call")
      { usage := PyField.raises { id := 1, msg := "AttributeError" },
        choices := PyField.absent, model := PyField.absent } "m" "op" (some [])).2.2
    { id := 1, msg := "AttributeError" } rfl

/-- C7 counterexample: the claim as stated requires every invocation on a
response carrying usage token counts to add to the token counter, but the
counter update is guarded by a truthy model label; with the default empty
model argument (exactly how agents.py lines 58 and 89 invoke the function)
the span attributes are set while the counter stays unchanged. -/
theorem claim_C7_counterexample :
    (add_llm_response_attributes (newSpan "llm.call") respWithUsage "" "op" (some [])).2
        = some [] ∧
    getAttr (add_llm_response_attributes (newSpan "llm.call") respWithUsage "" "op"
        (some [])).1 "gen_ai.usage.input_tokens" = some (AttrVal.int 3) ∧
    some ([] : CounterState)
      ≠ some (counterAdd (counterAdd [] 3 ("input", "", "op")) 5 ("output", "", "op")) := by
  refine ⟨rfl, rfl, ?_⟩
  decide

/-- C7 amended: for every response carrying usage token counts, provided
the token counter is initialized and a non-empty model label is supplied,
add_llm_response_attributes records the input and output token counts as
the two gen_ai.usage span attributes and adds them to the counter under the
input and output labels; with the empty default model label only the span
attributes are recorded. -/
theorem claim_C7_amended_token_recording (sp : Span) (resp : Response) (m o : String)
    (cs : CounterState) (u : Usage) (pt ct tt : Nat)
    (hu : resp.usage = PyField.present (some u))
    (hpt : u.prompt_tokens = Except.ok pt)
    (hct : u.completion_tokens = Except.ok ct)
    (htt : u.total_tokens = Except.ok tt)
    (hm : ¬ m = "") :
    getAttr (add_llm_response_attributes sp resp m o (some cs)).1 "gen_ai.usage.input_tokens"
        = some (AttrVal.int pt) ∧
    getAttr (add_llm_response_attributes sp resp m o (some cs)).1 "gen_ai.usage.output_tokens"
        = some (AttrVal.int ct) ∧
    (add_llm_response_attributes sp resp m o (some cs)).2
        = some (counterAdd (counterAdd cs pt ("input", m, o)) ct ("output", m, o)) := by
  rcases resp with ⟨usageF, choicesF, modelF⟩
  obtain rfl : usageF = PyField.present (some u) := hu
  rcases choicesF with _ | (_ | ⟨⟨msgF, fr⟩, rest⟩) | ec
  any_goals rcases msgF with _ | mv | e3
  all_goals rcases modelF with _ | ms | em
  all_goals
    simp [add_llm_response_attributes, addLlmResponseBody, usageStep, choicesStep, modelStep,
      hpt, hct, htt, hm, getAttr_setAttr]

/-- Closed witness for C7 amended: with model label gpt the counter gains
the two labeled additions. -/
theorem claim_C7_amended_witness :
    (add_llm_response_attributes (newSpan "llm.call") respWithUsage "gpt" "op" (some [])).2
      = some (counterAdd (counterAdd [] 3 ("input", "gpt", "op")) 5 ("output", "gpt", "op")) :=
  (claim_C7_amended_token_recording (newSpan "llm.call") respWithUsage "gpt" "op" []
    usageThreeFive 3 5 8 rfl rfl rfl rfl (by decide)).2.2

/-- C8: when the content-logging toggle resolves to false (including the
unset default) log_llm_prompt_and_response returns the span unchanged, so
no events are added; when it resolves to true and the configured maximum
length parses, exactly the two content events are appended, each carrying
the text truncated to the maximum and a truncated attribute that is true
exactly when the text length exceeds the maximum. -/
theorem claim_C8_content_logging_events (sp : Span) (p r : String)
    (en : Option Bool) (envE envM : Option String) :
    (resolveContentLogging en envE = false →
      log_llm_prompt_and_response sp p r en envE envM = sp) ∧
    (resolveContentLogging en envE = true →
      ∀ mL, parseIntPy (envM.getD "1000") = some mL →
        (log_llm_prompt_and_response sp p r en envE envM).events
          = sp.events ++ [promptEvent p mL, completionEvent r mL]) := by
  constructor
  · intro h
    simp [log_llm_prompt_and_response, h]
  · intro h mL hmL
    simp [log_llm_prompt_and_response, h, hmL, addEvent, promptEvent, completionEvent]

/-- Closed witness for C8: toggle on, maximum length 3, a six-character
prompt is truncated with the flag set and a two-character completion is
kept whole with the flag clear. -/
theorem claim_C8_witness :
    (log_llm_prompt_and_response (newSpan "llm.call") "abcdef" "xy" (some true) none
        (some "3")).events
      = (newSpan "llm.call").events ++ [promptEvent "abcdef" 3, completionEvent "xy" 3] :=
  (claim_C8_content_logging_events (newSpan "llm.call") "abcdef" "xy" (some true) none
    (some "3")).2 rfl 3 (by decide)

end LlmObs
